import Mathlib

/-!
Shallow embedding of `src/main.py` (theClimberDiary): an aiohttp server with a
`/ping` echo-plus-offset endpoint, a static `/page` route, permissive CORS on
registered resources, TLS context construction from environment-supplied file
paths, a scoped listener lifecycle, and file-based logging setup.
-/

namespace ClimberDiary

/-- Python logging levels used by the program (numeric order mirrors CPython:
NOTSET=0, DEBUG=10, INFO=20, WARNING=30, ERROR=40). -/
inductive LogLevel where
  | notset
  | debug
  | info
  | warning
  | error
deriving DecidableEq, Repr

def LogLevel.toNat : LogLevel → Nat
  | .notset => 0
  | .debug => 10
  | .info => 20
  | .warning => 30
  | .error => 40

def LogLevel.name : LogLevel → String
  | .notset => "NOTSET"
  | .debug => "DEBUG"
  | .info => "INFO"
  | .warning => "WARNING"
  | .error => "ERROR"

/-- Numeric comparison of levels, as CPython's `record.levelno >= level`. -/
def levelLe (a b : LogLevel) : Bool := a.toNat ≤ b.toNat

/-- A log record produced by a `logging.info(...)` style call. -/
structure LogRecord where
  level : LogLevel
  msg : String
deriving DecidableEq, Repr

/-- Python exceptions that the embedded code can raise. -/
inductive PyError where
  | typeError
  | valueError
  | keyError (key : String)
  | sslError (what : String)
deriving DecidableEq, Repr

/-- An HTTP request, reduced to the parts `handle_ping` reads: its headers. -/
structure Request where
  headers : List (String × String)
deriving DecidableEq, Repr

/-- `request.headers.get(k)`: first matching header value, `None` if absent. -/
def Request.headerGet (r : Request) (k : String) : Option String :=
  (r.headers.find? (fun p => p.fst == k)).map Prod.snd

/-- An HTTP response, reduced to status code and optional JSON integer body
(the only body this program produces on `/ping`). -/
structure Response where
  status : Nat
  jsonBody : Option Int
deriving DecidableEq, Repr

/-! ## Python `int(str)` parsing

`handle_ping` runs `int(value)` on the raw header string. We embed CPython's
string-to-int conversion in its two stages. First CPython rewrites the string
to ASCII (`_PyUnicode_TransformDecimalAndSpaceToASCII`): each character below
127 is kept verbatim, a Unicode whitespace character becomes `' '`, a Unicode
decimal digit (category Nd) becomes the corresponding ASCII digit, and any
other non-ASCII character makes the later parse fail. Then the ASCII parser
(`PyLong_FromString`) strips C whitespace, allows one optional leading sign,
and reads digits in which single underscores may separate digits (never
leading, trailing, doubled, or next to the sign). `int(None)` raises
`TypeError`; an unparseable string raises `ValueError`. -/

/-- The ASCII digit character of a digit value below ten. -/
def natToDigitChar : Nat → Char
  | 0 => '0' | 1 => '1' | 2 => '2' | 3 => '3' | 4 => '4'
  | 5 => '5' | 6 => '6' | 7 => '7' | 8 => '8' | _ => '9'

/-- The C `Py_ISSPACE` characters the ASCII parser strips around a literal. -/
def pyIsSpace (c : Char) : Bool :=
  c == ' ' || c == '\t' || c == '\n' || c == '\r' || c == '\x0b' || c == '\x0c'

/-- The code points of CPython's `Py_UNICODE_ISSPACE` (the whitespace the
transform stage rewrites to a plain space). -/
def pyUnicodeSpaces : List Nat :=
  [0x09, 0x0A, 0x0B, 0x0C, 0x0D, 0x1C, 0x1D, 0x1E, 0x1F, 0x20, 0x85, 0xA0,
   0x1680, 0x2000, 0x2001, 0x2002, 0x2003, 0x2004, 0x2005, 0x2006, 0x2007,
   0x2008, 0x2009, 0x200A, 0x2028, 0x2029, 0x202F, 0x205F, 0x3000]

/-- CPython's `Py_UNICODE_ISSPACE`. -/
def pyUnicodeIsSpace (c : Char) : Bool := pyUnicodeSpaces.contains c.toNat

/-- The zero digit of every Unicode decimal-digit run (general category Nd,
Unicode 15.0, as shipped with CPython 3.12): each run is the ten consecutive
code points starting here, and `Py_UNICODE_TODECIMAL` maps its members to
0..9. -/
def pyNdZeroStarts : List Nat :=
  [0x30, 0x660, 0x6F0, 0x7C0, 0x966, 0x9E6, 0xA66, 0xAE6, 0xB66, 0xBE6,
   0xC66, 0xCE6, 0xD66, 0xDE6, 0xE50, 0xED0, 0xF20, 0x1040, 0x1090, 0x17E0,
   0x1810, 0x1946, 0x19D0, 0x1A80, 0x1A90, 0x1B50, 0x1BB0, 0x1C40, 0x1C50,
   0xA620, 0xA8D0, 0xA900, 0xA9D0, 0xA9F0, 0xAA50, 0xABF0, 0xFF10,
   0x104A0, 0x10D30, 0x11066, 0x110F0, 0x11136, 0x111D0, 0x112F0, 0x11450,
   0x114D0, 0x11650, 0x116C0, 0x11730, 0x118E0, 0x11950, 0x11C50, 0x11D50,
   0x11DA0, 0x11F50, 0x16A60, 0x16AC0, 0x16B50,
   0x1D7CE, 0x1D7D8, 0x1D7E2, 0x1D7EC, 0x1D7F6,
   0x1E140, 0x1E2F0, 0x1E4F0, 0x1E950, 0x1FBF0]

/-- CPython's `Py_UNICODE_TODECIMAL`: the decimal value of a Unicode decimal
digit, scanning the Nd runs. -/
def pyDecimalDigit (c : Char) : Option Nat :=
  (pyNdZeroStarts.find?
      (fun s => decide (s ≤ c.toNat) && decide (c.toNat < s + 10))).map
    (fun s => c.toNat - s)

/-- One character of `_PyUnicode_TransformDecimalAndSpaceToASCII`: characters
below 127 are kept verbatim, non-ASCII whitespace becomes `' '`, a non-ASCII
decimal digit becomes its ASCII digit, and any other character is kept (it is
non-ASCII, so the parse will fail at the all-ASCII check below, as CPython's
parse fails on the `?` marker it writes there). -/
def pyTransformChar (c : Char) : Char :=
  if c.toNat < 127 then c
  else if pyUnicodeIsSpace c then ' '
  else
    match pyDecimalDigit c with
    | some d => natToDigitChar d
    | none => c

/-- Strip leading and trailing whitespace, as CPython does before parsing. -/
def pyStrip (l : List Char) : List Char :=
  ((l.dropWhile pyIsSpace).reverse.dropWhile pyIsSpace).reverse

/-- Numeric value of an ASCII digit character. -/
def digitVal (c : Char) : Nat := c.toNat - '0'.toNat

/-- Consume the remaining digits after the first one, allowing a single
underscore between two digits, accumulating the value left to right. -/
def pyDigitsAux : List Char → Nat → Option Nat
  | [], acc => some acc
  | c :: rest, acc =>
    if c = '_' then
      match rest with
      | [] => none
      | c2 :: rest2 =>
        if c2.isDigit then pyDigitsAux rest2 (acc * 10 + digitVal c2) else none
    else if c.isDigit then pyDigitsAux rest (acc * 10 + digitVal c) else none

/-- Parse a nonempty run of digits with optional internal underscores. -/
def pyParseDigits (l : List Char) : Option Nat :=
  match l with
  | [] => none
  | c :: rest => if c.isDigit then pyDigitsAux rest (digitVal c) else none

/-- The sign-and-digits phase of CPython `int(s)`, after stripping: an
optional single leading `+` or `-`, then digits with internal underscores. -/
def pythonParseIntCore : List Char → Option Int
  | [] => none
  | c :: rest =>
    if c = '+' then (pyParseDigits rest).map Int.ofNat
    else if c = '-' then (pyParseDigits rest).map (fun n => -Int.ofNat n)
    else (pyParseDigits (c :: rest)).map Int.ofNat

/-- The ASCII parsing stage of CPython `int(s)` (`PyLong_FromString`): strip
C whitespace, then sign and digits. -/
def pythonParseIntAscii (s : List Char) : Option Int :=
  pythonParseIntCore (pyStrip s)

/-- CPython `int(s)` for a string `s`, as a character-list function: rewrite
the string to ASCII (Unicode whitespace to space, Unicode decimal digits to
ASCII digits), fail if any non-ASCII character remains, then run the ASCII
parser. -/
def pythonParseInt (s : List Char) : Option Int :=
  let t := s.map pyTransformChar
  if t.all (fun c => decide (c.toNat < 127)) then pythonParseIntAscii t
  else none

/-- CPython `int(s)` on a Lean `String`. -/
def pythonParseIntStr (s : String) : Option Int := pythonParseInt s.data

/-- `int(value)` where `value` came from `headers.get` and may be `None`:
`int(None)` raises `TypeError`, an unparseable string raises `ValueError`. -/
def pythonInt : Option String → Except PyError Int
  | none => Except.error PyError.typeError
  | some s =>
    match pythonParseIntStr s with
    | none => Except.error PyError.valueError
    | some v => Except.ok v

/-! ## The `Server` class and the ping handler -/

/-- The `Server` class: its only field is `_step`, set in `__init__`. -/
structure Server where
  _step : Int
deriving DecidableEq, Repr

/-- `Server.__init__`: sets `self._step = 2`. -/
def Server.init : Server := { _step := 2 }

/-- Python `str` rendering of the optional header value for the log line. -/
def pyShowOptStr : Option String → String
  | none => "None"
  | some s => s

/-- `Server.handle_ping`, embedded with explicit state passing (the method
assigns no field of `self`) and an explicit log output: read the `value`
header, log it, convert it with `int`, and answer `value + self._step` as a
JSON response with status 200; conversion failures escape as exceptions. -/
def Server.handle_ping (self : Server) (request : Request) :
    Server × List LogRecord × Except PyError Response :=
  let value := request.headerGet "value"
  let rec0 : LogRecord :=
    { level := LogLevel.info, msg := "Handling ping with value " ++ pyShowOptStr value }
  match pythonInt value with
  | Except.error e => (self, [rec0], Except.error e)
  | Except.ok v =>
      (self, [rec0], Except.ok { status := 200, jsonBody := some (v + self._step) })

/-- Modelled from aiohttp's dispatch (a library the source relies on): a
handler's returned response is sent as-is; an exception escaping the handler
is turned into a bare `500 Internal Server Error` response. -/
def serveRequest (s : Server) (r : Request) : Server × Response :=
  match s.handle_ping r with
  | (s', _, Except.ok resp) => (s', resp)
  | (s', _, Except.error _) => (s', { status := 500, jsonBody := none })

/-- A `GET /ping` request with a single `value` header. -/
def pingRequestWithValue (v : String) : Request := { headers := [("value", v)] }

/-! ## Route table and CORS (`_make_app`) -/

/-- The CORS options of `aiohttp_cors.ResourceOptions` that the program sets. -/
structure CorsOptions where
  allowAllOrigins : Bool
  exposeAllHeaders : Bool
  allowAllHeaders : Bool
deriving DecidableEq, Repr

/-- One registered route: its method (none for the static route, which serves
any fetch under the prefix), its URL path, whether it is the static-file
route, and whether it was registered with the CORS setup via `cors.add`. -/
structure RouteEntry where
  method : Option String
  path : String
  isStatic : Bool
  corsEnabled : Bool
deriving DecidableEq, Repr

/-- The application: its route table and the CORS defaults passed to
`aiohttp_cors.setup`. -/
structure App where
  routes : List RouteEntry
  corsDefaults : List (String × CorsOptions)
deriving DecidableEq, Repr

/-- The static route from `aiohttp.web.static('/page', ...)`: added with
`app.add_routes` directly and never passed to `cors.add`. -/
def staticRouteEntry : RouteEntry :=
  { method := none, path := "/page", isStatic := true, corsEnabled := false }

/-- The `GET /ping` route: both its resource and its route are wrapped by
`cors.add`. -/
def pingRouteEntry : RouteEntry :=
  { method := some "GET", path := "/ping", isStatic := false, corsEnabled := true }

/-- The defaults dict passed to `aiohttp_cors.setup`: key `*` (any origin)
with `expose_headers="*"` and `allow_headers="*"`. -/
def corsDefaultOptions : CorsOptions :=
  { allowAllOrigins := true, exposeAllHeaders := true, allowAllHeaders := true }

/-- `_make_app`: add the static `/page` route, set up CORS with permissive
defaults, then add the `/ping` resource and its GET route through `cors.add`. -/
def _make_app : App :=
  let app : App := { routes := [], corsDefaults := [] }
  let app := { app with routes := app.routes ++ [staticRouteEntry] }
  let app := { app with corsDefaults := [("*", corsDefaultOptions)] }
  { app with routes := app.routes ++ [pingRouteEntry] }

/-- Modelled from aiohttp_cors (a library the source relies on): CORS headers
are emitted on a route's responses exactly when the route was registered with
the CORS setup, using the configured default options for origin `*`. -/
def responseCorsOptions (app : App) (r : RouteEntry) : Option CorsOptions :=
  if r.corsEnabled then
    (app.corsDefaults.find? (fun p => p.fst == "*")).map Prod.snd
  else none

/-! ## Logging setup (`__main__` block)

The main block obtains the root logger, sets its level, builds a
`FileHandler('log.log')` with level DEBUG and a timestamp-and-level
formatter — and then runs the server. Crucially, translating the source line
by line, `logger.addHandler(file_handler)` is never called. -/

/-- A configured `logging.FileHandler`: target filename, level, and whether
a formatter has been set on it. -/
structure FileHandlerCfg where
  target : String
  level : LogLevel
  hasFormatter : Bool
deriving DecidableEq, Repr

/-- A `logging.Logger`: its level and its attached handlers. -/
structure Logger where
  level : LogLevel
  handlers : List FileHandlerCfg
deriving DecidableEq, Repr

/-- The `__main__` logging setup, statement by statement:
`logging.getLogger()` (root logger, default level WARNING, no handlers),
`logger.setLevel(logging.DEBUG)`, `logging.FileHandler('log.log')`,
`file_handler.setLevel(logging.DEBUG)`, `file_handler.setFormatter(...)`.
No statement attaches `file_handler` to `logger`. -/
def mainLoggerSetup : Logger × FileHandlerCfg :=
  let logger : Logger := { level := LogLevel.warning, handlers := [] }
  let logger := { logger with level := LogLevel.debug }
  let file_handler : FileHandlerCfg :=
    { target := "log.log", level := LogLevel.notset, hasFormatter := false }
  let file_handler := { file_handler with level := LogLevel.debug }
  let file_handler := { file_handler with hasFormatter := true }
  (logger, file_handler)

/-- Modelled from CPython logging: a `logging.info`-style call on a logger
writes one formatted line per attached handler whose level (and the logger's
level) admits the record. Result: (filename, line) pairs appended to files. -/
def fileLinesOf (lg : Logger) (ts : String) (rec0 : LogRecord) : List (String × String) :=
  (lg.handlers.filter (fun h => levelLe lg.level rec0.level && levelLe h.level rec0.level)).map
    (fun h => (h.target, ts ++ " " ++ rec0.level.name ++ " " ++ rec0.msg))

/-! ## TLS context construction and listener lifecycle
(`with_application_server`) -/

/-- The process environment and filesystem facts the TLS builder consults:
`os.environ`, readability of a path, and whether a private key matches a
certificate chain. -/
structure Env where
  vars : String → Option String
  fileReadable : String → Bool
  keyMatchesCert : String → String → Bool

/-- A constructed server-side TLS context: its CA file and the loaded
certificate chain and private key paths. -/
inductive SslCtx where
  | ctx (cafile : Option String) (cert key : String)
deriving DecidableEq, Repr

/-- `os.environ[k]`: raises `KeyError` when the variable is unset. -/
def environGetItem (env : Env) (k : String) : Except PyError String :=
  match env.vars k with
  | some v => Except.ok v
  | none => Except.error (PyError.keyError k)

/-- The TLS construction of `with_application_server` when `use_ssl`:
`ssl.create_default_context(Purpose.CLIENT_AUTH, cafile=environ.get('SSL_CA_PATH'))`
(reads the CA bundle when the variable is set, raising if unreadable), then
`load_cert_chain(environ['SSL_CERT_PATH'], environ['SSL_PRIVATE_KEY_PATH'])`
(raising `KeyError` on a missing variable, and an SSL error when either file
is unreadable or the key does not match the certificate). -/
def buildSslCtx (env : Env) : Except PyError SslCtx :=
  let cafile := env.vars "SSL_CA_PATH"
  match cafile with
  | some p =>
    if env.fileReadable p then
      match environGetItem env "SSL_CERT_PATH" with
      | Except.error e => Except.error e
      | Except.ok cert =>
        match environGetItem env "SSL_PRIVATE_KEY_PATH" with
        | Except.error e => Except.error e
        | Except.ok key =>
          if ¬ env.fileReadable cert then Except.error (PyError.sslError "cert unreadable")
          else if ¬ env.fileReadable key then Except.error (PyError.sslError "key unreadable")
          else if ¬ env.keyMatchesCert key cert then Except.error (PyError.sslError "key mismatch")
          else Except.ok (SslCtx.ctx cafile cert key)
    else Except.error (PyError.sslError "cafile unreadable")
  | none =>
    match environGetItem env "SSL_CERT_PATH" with
    | Except.error e => Except.error e
    | Except.ok cert =>
      match environGetItem env "SSL_PRIVATE_KEY_PATH" with
      | Except.error e => Except.error e
      | Except.ok key =>
        if ¬ env.fileReadable cert then Except.error (PyError.sslError "cert unreadable")
        else if ¬ env.fileReadable key then Except.error (PyError.sslError "key unreadable")
        else if ¬ env.keyMatchesCert key cert then Except.error (PyError.sslError "key mismatch")
        else Except.ok (SslCtx.ctx none cert key)

/-- Observable lifecycle events of `with_application_server`, in program
order: binding the port (`site.start`), the startup log line, the shutdown
log line, `runner.cleanup()` (stop accepting, close connections, release the
port), and the trailing `asyncio.sleep(.01)`. -/
inductive Event where
  | bindPort (port : Nat)
  | startLog (port : Nat)
  | shutdownLog (port : Nat)
  | cleanup
  | sleepDelay
deriving DecidableEq, Repr

/-- How the caller's body inside the `with_application_server` scope exits. -/
inductive BodyOutcome where
  | normal
  | cancelled
  | exception
deriving DecidableEq, Repr

/-- The startup phase of `with_application_server`: build the TLS context
first when `use_ssl` (any failure aborts before anything is bound), then set
up the runner and start the site, which binds the port. Returns the optional
context and the events emitted so far. -/
def serverStartup (env : Env) (port : Nat) (use_ssl : Bool) :
    Except PyError (Option SslCtx) × List Event :=
  if use_ssl then
    match buildSslCtx env with
    | Except.error e => (Except.error e, [])
    | Except.ok c => (Except.ok (some c), [Event.bindPort port])
  else (Except.ok none, [Event.bindPort port])

/-- Python `try ... finally` semantics for the yield of the context manager:
the finally block's events run after the body for every outcome, and the
body's outcome propagates out of the scope. -/
def runTryFinally (tryEvents : List Event) (o : BodyOutcome)
    (finallyEvents : List Event) : List Event × BodyOutcome :=
  (tryEvents ++ finallyEvents, o)

/-- Whether the port is still bound after a sequence of lifecycle events:
binding sets it, `runner.cleanup()` releases it. -/
def portBoundAfter (events : List Event) : Bool :=
  events.foldl
    (fun b e =>
      match e with
      | Event.bindPort _ => true
      | Event.cleanup => false
      | _ => b)
    false

/-- The whole `with_application_server` scope for a body that exits with
outcome `o`: startup (TLS then bind), the startup log line, the yield, and
the finally block (shutdown log, `runner.cleanup()`, `asyncio.sleep(.01)`).
A startup failure propagates as the exception; otherwise the full event
trace and the body's outcome are returned. -/
def withApplicationServer (env : Env) (port : Nat) (use_ssl : Bool)
    (o : BodyOutcome) : Except PyError (List Event × BodyOutcome) :=
  match serverStartup env port use_ssl with
  | (Except.error e, _) => Except.error e
  | (Except.ok _, startEvents) =>
      Except.ok
        (runTryFinally (startEvents ++ [Event.startLog port]) o
          [Event.shutdownLog port, Event.cleanup, Event.sleepDelay])

/-- An environment with no variables set and no readable files (e.g. a run
without `SSL_CERT_PATH` exported). -/
def emptyEnv : Env :=
  { vars := fun _ => none, fileReadable := fun _ => false,
    keyMatchesCert := fun _ _ => false }

/-! ## Base-10 rendering of an integer (the header strings of claim C1) -/

/-- Base-10 digit string of a natural number, most significant digit first. -/
def natToDigits (n : Nat) : List Char :=
  if _h : n < 10 then [natToDigitChar n]
  else natToDigits (n / 10) ++ [natToDigitChar (n % 10)]
decreasing_by
  exact Nat.div_lt_self (by omega) (by omega)

/-- The base-10 rendering of an integer, as Python's `str` produces it. -/
def pyIntRender (v : Int) : List Char :=
  if v < 0 then '-' :: natToDigits v.natAbs else natToDigits v.natAbs

/-- The base-10 rendering as a Lean `String`. -/
def pyIntRenderStr (v : Int) : String := String.mk (pyIntRender v)

/-! ## Lemmas about digits, stripping, and the render/parse roundtrip -/

lemma natToDigitChar_isDigit {d : Nat} (h : d < 10) :
    (natToDigitChar d).isDigit = true := by
  interval_cases d <;> decide

lemma digitVal_natToDigitChar {d : Nat} (h : d < 10) :
    digitVal (natToDigitChar d) = d := by
  interval_cases d <;> decide

lemma natToDigits_ne_nil (n : Nat) : natToDigits n ≠ [] := by
  unfold natToDigits
  split <;> simp

lemma natToDigits_all_digits (n : Nat) :
    ∀ c ∈ natToDigits n, c.isDigit = true := by
  induction n using Nat.strong_induction_on with
  | _ n ih =>
    unfold natToDigits
    split
    · intro c hc
      rcases List.mem_singleton.mp hc with rfl
      exact natToDigitChar_isDigit (by omega)
    · intro c hc
      rcases List.mem_append.mp hc with hc | hc
      · exact ih (n / 10) (Nat.div_lt_self (by omega) (by omega)) c hc
      · rcases List.mem_singleton.mp hc with rfl
        exact natToDigitChar_isDigit (Nat.mod_lt _ (by omega))

lemma beq_false_of_isDigit {c : Char} (h : c.isDigit = true) (x : Char)
    (hx : x.isDigit = false) : (c == x) = false := by
  by_cases hb : c = x
  · subst hb; rw [h] at hx; exact Bool.noConfusion hx
  · exact beq_eq_false_iff_ne.mpr hb

lemma isDigit_not_space {c : Char} (h : c.isDigit = true) : pyIsSpace c = false := by
  unfold pyIsSpace
  rw [beq_false_of_isDigit h ' ' (by decide), beq_false_of_isDigit h '\t' (by decide),
    beq_false_of_isDigit h '\n' (by decide), beq_false_of_isDigit h '\r' (by decide),
    beq_false_of_isDigit h '\x0b' (by decide), beq_false_of_isDigit h '\x0c' (by decide)]
  rfl

lemma isDigit_ne_underscore {c : Char} (h : c.isDigit = true) : c ≠ '_' := by
  intro hc; subst hc; exact absurd h (by decide)

lemma isDigit_ne_plus {c : Char} (h : c.isDigit = true) : c ≠ '+' := by
  intro hc; subst hc; exact absurd h (by decide)

lemma isDigit_ne_minus {c : Char} (h : c.isDigit = true) : c ≠ '-' := by
  intro hc; subst hc; exact absurd h (by decide)

lemma dropWhile_eq_self_of {p : Char → Bool} {l : List Char}
    (h : ∀ c ∈ l, p c = false) : l.dropWhile p = l := by
  cases l with
  | nil => rfl
  | cons c t => simp [List.dropWhile_cons, h c (by simp)]

lemma pyStrip_eq_self {l : List Char} (h : ∀ c ∈ l, pyIsSpace c = false) :
    pyStrip l = l := by
  unfold pyStrip
  rw [dropWhile_eq_self_of h, dropWhile_eq_self_of, List.reverse_reverse]
  intro c hc
  exact h c (List.mem_reverse.mp hc)

lemma pyDigitsAux_digits :
    ∀ (ds : List Char) (acc : Nat), (∀ c ∈ ds, c.isDigit = true) →
      pyDigitsAux ds acc = some (ds.foldl (fun a c => a * 10 + digitVal c) acc) := by
  intro ds
  induction ds with
  | nil => intro acc _; rfl
  | cons c t ih =>
    intro acc h
    have hc : c.isDigit = true := h c (by simp)
    rw [pyDigitsAux.eq_def]
    simp only [if_neg (isDigit_ne_underscore hc), if_pos hc]
    rw [List.foldl_cons]
    exact ih _ (fun x hx => h x (by simp [hx]))

lemma pyParseDigits_digits {ds : List Char} (hne : ds ≠ [])
    (h : ∀ c ∈ ds, c.isDigit = true) :
    pyParseDigits ds = some (ds.foldl (fun a c => a * 10 + digitVal c) 0) := by
  cases ds with
  | nil => exact absurd rfl hne
  | cons c t =>
    rw [pyParseDigits, if_pos (h c (by simp)), List.foldl_cons,
      pyDigitsAux_digits t _ (fun x hx => h x (by simp [hx]))]
    norm_num

lemma natToDigits_foldl (n : Nat) :
    ∀ acc : Nat,
      (natToDigits n).foldl (fun a c => a * 10 + digitVal c) acc =
        acc * 10 ^ (natToDigits n).length + n := by
  induction n using Nat.strong_induction_on with
  | _ n ih =>
    intro acc
    unfold natToDigits
    split
    · rename_i h
      simp [List.foldl_cons, digitVal_natToDigitChar h]
    · rename_i h
      rw [List.foldl_append, ih (n / 10) (Nat.div_lt_self (by omega) (by omega)) acc]
      simp only [List.foldl_cons, List.foldl_nil, List.length_append,
        List.length_singleton, digitVal_natToDigitChar (Nat.mod_lt n (by omega))]
      have hdm : n / 10 * 10 + n % 10 = n := by omega
      have hring :
          (acc * 10 ^ (natToDigits (n / 10)).length + n / 10) * 10 + n % 10 =
            acc * 10 ^ ((natToDigits (n / 10)).length + 1) +
              (n / 10 * 10 + n % 10) := by
        ring
      rw [hring, hdm]

lemma pyParseDigits_natToDigits (n : Nat) :
    pyParseDigits (natToDigits n) = some n := by
  rw [pyParseDigits_digits (natToDigits_ne_nil n) (natToDigits_all_digits n),
    natToDigits_foldl n 0]
  norm_num

lemma natToDigits_cons (n : Nat) :
    ∃ c rest, natToDigits n = c :: rest := by
  cases h : natToDigits n with
  | nil => exact absurd h (natToDigits_ne_nil n)
  | cons c rest => exact ⟨c, rest, rfl⟩

/-- Every character of `natToDigits` is an ASCII digit character by value. -/
lemma natToDigits_mem_repr (n : Nat) :
    ∀ c ∈ natToDigits n, ∃ d, d < 10 ∧ c = natToDigitChar d := by
  induction n using Nat.strong_induction_on with
  | _ n ih =>
    unfold natToDigits
    split
    · intro c hc
      rcases List.mem_singleton.mp hc with rfl
      exact ⟨n, by omega, rfl⟩
    · intro c hc
      rcases List.mem_append.mp hc with hc | hc
      · exact ih (n / 10) (Nat.div_lt_self (by omega) (by omega)) c hc
      · rcases List.mem_singleton.mp hc with rfl
        exact ⟨n % 10, Nat.mod_lt _ (by omega), rfl⟩

lemma natToDigitChar_toNat_lt {d : Nat} (h : d < 10) :
    (natToDigitChar d).toNat < 127 := by
  interval_cases d <;> decide

/-- The ASCII-rewriting stage keeps every character below 127 unchanged. -/
lemma pyTransformChar_eq_of_lt {c : Char} (h : c.toNat < 127) :
    pyTransformChar c = c := by
  unfold pyTransformChar
  rw [if_pos h]

lemma map_id_of_fixed {f : Char → Char} :
    ∀ l : List Char, (∀ c ∈ l, f c = c) → l.map f = l := by
  intro l h
  induction l with
  | nil => rfl
  | cons c t ih =>
    simp only [List.map_cons, h c (by simp), ih (fun x hx => h x (by simp [hx])),
      List.cons.injEq, and_self]

/-- Rendered integers are pure ASCII: a sign and digit characters. -/
lemma pyIntRender_lt127 (v : Int) : ∀ c ∈ pyIntRender v, c.toNat < 127 := by
  intro c hc
  unfold pyIntRender at hc
  split at hc
  · rcases List.mem_cons.mp hc with rfl | hc
    · decide
    · obtain ⟨d, hd, rfl⟩ := natToDigits_mem_repr _ c hc
      exact natToDigitChar_toNat_lt hd
  · obtain ⟨d, hd, rfl⟩ := natToDigits_mem_repr _ c hc
    exact natToDigitChar_toNat_lt hd

/-- On an all-ASCII string, `int` reduces to the ASCII parsing stage. -/
lemma pythonParseInt_eq_ascii_of_lt127 {l : List Char}
    (h : ∀ c ∈ l, c.toNat < 127) : pythonParseInt l = pythonParseIntAscii l := by
  unfold pythonParseInt
  rw [map_id_of_fixed l (fun c hc => pyTransformChar_eq_of_lt (h c hc)),
    if_pos (List.all_eq_true.mpr (fun c hc => decide_eq_true (h c hc)))]

/-- The base-10 rendering of any integer is parsed back by the ASCII stage. -/
lemma pythonParseIntAscii_render (v : Int) :
    pythonParseIntAscii (pyIntRender v) = some v := by
  by_cases hv : v < 0
  · have hstrip : pyStrip ('-' :: natToDigits v.natAbs) = '-' :: natToDigits v.natAbs := by
      apply pyStrip_eq_self
      intro c hc
      rcases List.mem_cons.mp hc with rfl | hc
      · decide
      · exact isDigit_not_space (natToDigits_all_digits _ c hc)
    rw [pythonParseIntAscii, pyIntRender, if_pos hv, hstrip]
    have hcore : pythonParseIntCore ('-' :: natToDigits v.natAbs) =
        (pyParseDigits (natToDigits v.natAbs)).map (fun n => -Int.ofNat n) := rfl
    rw [hcore, pyParseDigits_natToDigits]
    show some (-Int.ofNat v.natAbs) = some v
    congr 1
    rw [Int.ofNat_eq_natCast]
    omega
  · obtain ⟨c, rest, hds⟩ := natToDigits_cons v.natAbs
    have hcd : c.isDigit = true :=
      natToDigits_all_digits v.natAbs c (by rw [hds]; simp)
    have hstrip : pyStrip (natToDigits v.natAbs) = natToDigits v.natAbs := by
      apply pyStrip_eq_self
      intro x hx
      exact isDigit_not_space (natToDigits_all_digits _ x hx)
    rw [pythonParseIntAscii, pyIntRender, if_neg hv, hstrip, hds]
    have hcore : pythonParseIntCore (c :: rest) =
        (if c = '+' then (pyParseDigits rest).map Int.ofNat
        else if c = '-' then (pyParseDigits rest).map (fun n => -Int.ofNat n)
        else (pyParseDigits (c :: rest)).map Int.ofNat) := rfl
    rw [hcore, if_neg (isDigit_ne_plus hcd), if_neg (isDigit_ne_minus hcd), ← hds,
      pyParseDigits_natToDigits]
    show some (Int.ofNat v.natAbs) = some v
    congr 1
    rw [Int.ofNat_eq_natCast]
    omega

/-- The base-10 rendering of any integer is parsed back by `int`. -/
lemma pythonParseInt_render (v : Int) : pythonParseInt (pyIntRender v) = some v := by
  rw [pythonParseInt_eq_ascii_of_lt127 (pyIntRender_lt127 v)]
  exact pythonParseIntAscii_render v

/-! ## Claim theorems -/

/-- Claim C1: for every integer v, a GET /ping request whose `value` header
is the base-10 rendering of v is answered with status 200 and JSON body
v + Offset, where Offset is the `_step = 2` fixed at Server construction. -/
theorem C1_ping_returns_value_plus_offset (v : Int) :
    serveRequest Server.init (pingRequestWithValue (pyIntRenderStr v)) =
      (Server.init, { status := 200, jsonBody := some (v + 2) }) := by
  have hparse : pythonParseIntStr (pyIntRenderStr v) = some v :=
    pythonParseInt_render v
  simp [serveRequest, Server.handle_ping, pingRequestWithValue, Request.headerGet,
    pythonInt, hparse, Server.init]

/-- Claim C2: contrary to the claim, a GET /ping whose `value` header is not
an integer does not get a 4xx: `int('abc')` raises `ValueError`, the fault
escapes the handler, and the framework answers 500. -/
theorem C2_nonint_value_is_unhandled_fault :
    (Server.init.handle_ping (pingRequestWithValue "abc")).2.2 =
      Except.error PyError.valueError ∧
    serveRequest Server.init (pingRequestWithValue "abc") =
      (Server.init, { status := 500, jsonBody := none }) := by
  exact ⟨rfl, rfl⟩

/-- Claim C3: contrary to the claim, a GET /ping with no `value` header does
not get a 4xx: `headers.get` yields `None`, `int(None)` raises `TypeError`,
the fault escapes the handler, and the framework answers 500. -/
theorem C3_missing_value_is_unhandled_fault :
    (Server.init.handle_ping { headers := [("accept", "application/json")] }).2.2 =
      Except.error PyError.typeError ∧
    serveRequest Server.init { headers := [("accept", "application/json")] } =
      (Server.init, { status := 500, jsonBody := none }) := by
  exact ⟨rfl, rfl⟩

/-- Claim C4 counterexample: the static `/page` route is in the app's route
table but was never registered with the CORS setup, so its responses carry
no CORS headers — not every route emits them. -/
theorem C4_counterexample_static_route_lacks_cors :
    staticRouteEntry ∈ _make_app.routes ∧
    responseCorsOptions _make_app staticRouteEntry = none ∧
    ¬ (∀ r ∈ _make_app.routes, (responseCorsOptions _make_app r).isSome = true) := by
  refine ⟨by decide, rfl, ?_⟩
  intro hall
  have := hall staticRouteEntry (by decide)
  simp [responseCorsOptions, staticRouteEntry] at this

/-- Claim C4 amended: the route table is exactly the static `/page` route and
the GET `/ping` route; responses on `/ping` carry the permissive CORS options
(any origin, any request header, any exposed response header), while the
static `/page` route is not registered with the CORS setup and carries none. -/
theorem C4_cors_on_ping_but_not_on_static :
    _make_app.routes = [staticRouteEntry, pingRouteEntry] ∧
    responseCorsOptions _make_app pingRouteEntry = some corsDefaultOptions ∧
    corsDefaultOptions.allowAllOrigins = true ∧
    corsDefaultOptions.allowAllHeaders = true ∧
    corsDefaultOptions.exposeAllHeaders = true ∧
    responseCorsOptions _make_app staticRouteEntry = none := by
  exact ⟨rfl, rfl, rfl, rfl, rfl, rfl⟩

/-- Claim C5: contrary to the claim, no event ever produces a line in the log
file: the `__main__` block builds `FileHandler('log.log')` with a timestamp
and level formatter but never calls `logger.addHandler`, so the root logger
has no handlers and every `logging.info` call writes nothing to any file. -/
theorem C5_no_log_line_reaches_file :
    mainLoggerSetup.fst.handlers = [] ∧
    mainLoggerSetup.snd.target = "log.log" ∧
    mainLoggerSetup.snd.hasFormatter = true ∧
    (∀ (ts : String) (rec0 : LogRecord), fileLinesOf mainLoggerSetup.fst ts rec0 = []) := by
  exact ⟨rfl, rfl, rfl, fun _ _ => rfl⟩

/-- Claim C6: when TLS is enabled and building the TLS context fails (missing
environment variable, unreadable CA, certificate or key file, or a key that
does not match the certificate), startup propagates the configuration error
and the port is never bound. -/
theorem C6_ssl_failure_prevents_bind (env : Env) (port : Nat) (e : PyError)
    (o : BodyOutcome) (h : buildSslCtx env = Except.error e) :
    serverStartup env port true = (Except.error e, []) ∧
    withApplicationServer env port true o = Except.error e := by
  constructor
  · simp [serverStartup, h]
  · simp [withApplicationServer, serverStartup, h]

/-- Witness for C6: with no environment variables set, the TLS build fails
with `KeyError('SSL_CERT_PATH')`, startup emits no bind event, and the whole
scope propagates the error. -/
theorem C6_ssl_failure_prevents_bind_witness :
    buildSslCtx emptyEnv = Except.error (PyError.keyError "SSL_CERT_PATH") ∧
    serverStartup emptyEnv 443 true =
      (Except.error (PyError.keyError "SSL_CERT_PATH"), []) ∧
    withApplicationServer emptyEnv 443 true BodyOutcome.normal =
      Except.error (PyError.keyError "SSL_CERT_PATH") := by
  have h : buildSslCtx emptyEnv = Except.error (PyError.keyError "SSL_CERT_PATH") := rfl
  obtain ⟨h1, h2⟩ :=
    C6_ssl_failure_prevents_bind emptyEnv 443 (PyError.keyError "SSL_CERT_PATH")
      BodyOutcome.normal h
  exact ⟨h, h1, h2⟩

/-- Claim C7: whenever the listener scope returns a trace (the body having
exited normally, by cancellation, or by an exception), the body's outcome
propagates, the trace ends with the shutdown log, `runner.cleanup()` and the
brief delay in that order, and the port is not bound after the trace. -/
theorem C7_release_runs_on_every_exit (env : Env) (port : Nat) (use_ssl : Bool)
    (o : BodyOutcome) (tr : List Event) (o' : BodyOutcome)
    (h : withApplicationServer env port use_ssl o = Except.ok (tr, o')) :
    o' = o ∧
    (∃ pre, tr = pre ++ [Event.shutdownLog port, Event.cleanup, Event.sleepDelay]) ∧
    portBoundAfter tr = false := by
  unfold withApplicationServer at h
  cases hs : serverStartup env port use_ssl with
  | mk res evs =>
    rw [hs] at h
    cases res with
    | error e => exact absurd h (by simp)
    | ok ctx =>
      unfold runTryFinally at h
      rw [Except.ok.injEq, Prod.mk.injEq] at h
      obtain ⟨htr, ho⟩ := h
      subst htr
      subst ho
      refine ⟨rfl, ⟨evs ++ [Event.startLog port], rfl⟩, ?_⟩
      simp [portBoundAfter, List.foldl_append]

/-- Witness for C7: a concrete run without TLS whose body exits by exception
still produces the full shutdown suffix and leaves the port unbound. -/
theorem C7_release_runs_on_every_exit_witness :
    withApplicationServer emptyEnv 443 false BodyOutcome.exception =
      Except.ok ([Event.bindPort 443, Event.startLog 443, Event.shutdownLog 443,
        Event.cleanup, Event.sleepDelay], BodyOutcome.exception) ∧
    (BodyOutcome.exception = BodyOutcome.exception ∧
      (∃ pre, [Event.bindPort 443, Event.startLog 443, Event.shutdownLog 443,
        Event.cleanup, Event.sleepDelay] =
          pre ++ [Event.shutdownLog 443, Event.cleanup, Event.sleepDelay]) ∧
      portBoundAfter [Event.bindPort 443, Event.startLog 443, Event.shutdownLog 443,
        Event.cleanup, Event.sleepDelay] = false) := by
  have h : withApplicationServer emptyEnv 443 false BodyOutcome.exception =
      Except.ok ([Event.bindPort 443, Event.startLog 443, Event.shutdownLog 443,
        Event.cleanup, Event.sleepDelay], BodyOutcome.exception) := rfl
  exact ⟨h, C7_release_runs_on_every_exit emptyEnv 443 false BodyOutcome.exception _ _ h⟩

/-- Claim C8: the offset is fixed at construction (`_step = 2`) and no
request handling writes any server state: the server value after
`handle_ping` (and after the full dispatch) equals the server value before. -/
theorem C8_offset_immutable (s : Server) (r : Request) :
    (s.handle_ping r).fst = s ∧ (serveRequest s r).fst = s ∧ Server.init._step = 2 := by
  refine ⟨?_, ?_, rfl⟩
  · cases h : pythonInt (r.headerGet "value") <;> simp [Server.handle_ping, h]
  · cases h : pythonInt (r.headerGet "value") <;>
      simp [serveRequest, Server.handle_ping, h]

/-- Claim C9 counterexample: the claim's description of the accepted set —
sign, surrounding whitespace, and underscores over base-10 digit strings,
with any other string rejected — is too narrow: the Arabic-Indic digit five
(U+0665) is rejected by that ASCII grammar (the ASCII parsing stage), yet
the program parses it as 5 and answers 200 with body 7. -/
theorem C9_counterexample_unicode_digit_accepted :
    pythonParseIntAscii "٥".data = none ∧
    pythonParseIntStr "٥" = some 5 ∧
    serveRequest Server.init (pingRequestWithValue "٥") =
      (Server.init, { status := 200, jsonBody := some 7 }) := by
  exact ⟨rfl, rfl, rfl⟩

/-- Claim C9 amended: the ping handler accepts exactly the header strings
CPython's `int` parses — the response is 200 with the parsed value plus 2
exactly when the parse succeeds, and a 500 fault otherwise — and that set is
wider than plain digit strings: an optional sign, surrounding whitespace
(including Unicode whitespace such as U+00A0) and single underscores between
digits are accepted (so value=' +5 ' yields 7), decimal digits of any Unicode
script are accepted (U+0665 and U+FF15 both parse as 5), while misplaced
underscores, inner spaces, or other non-digit text are rejected. -/
theorem C9_accepted_value_strings :
    (∀ s : String,
      (serveRequest Server.init (pingRequestWithValue s)).snd =
        match pythonParseIntStr s with
        | some v => { status := 200, jsonBody := some (v + 2) }
        | none => { status := 500, jsonBody := none }) ∧
    pythonParseIntStr " +5 " = some 5 ∧
    (serveRequest Server.init (pingRequestWithValue " +5 ")).snd =
      { status := 200, jsonBody := some 7 } ∧
    pythonParseIntStr "1_0" = some 10 ∧
    pythonParseIntStr "  -42  " = some (-42) ∧
    pythonParseIntStr "٥" = some 5 ∧
    pythonParseIntStr "５" = some 5 ∧
    pythonParseIntStr "\u00A05" = some 5 ∧
    pythonParseIntStr "٥٠" = some 50 ∧
    pythonParseIntStr "abc" = none ∧
    pythonParseIntStr "" = none ∧
    pythonParseIntStr "_5" = none ∧
    pythonParseIntStr "5_" = none ∧
    pythonParseIntStr "1__0" = none ∧
    pythonParseIntStr "+ 5" = none ∧
    pythonParseIntStr "5.0" = none ∧
    pythonParseIntStr "½" = none := by
  refine ⟨?_, by decide⟩
  intro s
  cases h : pythonParseIntStr s <;>
    simp [serveRequest, Server.handle_ping, pingRequestWithValue, Request.headerGet,
      pythonInt, h, Server.init]

/-- Claim C10: the ping handler is deterministic — identically constructed
servers given requests with equal `value` headers produce the same handler
output (including the response's status and body). -/
theorem C10_handler_deterministic (s : Server) (r1 r2 : Request)
    (h : r1.headerGet "value" = r2.headerGet "value") :
    s.handle_ping r1 = s.handle_ping r2 ∧ serveRequest s r1 = serveRequest s r2 := by
  constructor
  · simp only [Server.handle_ping, h]
  · simp only [serveRequest, Server.handle_ping, h]

/-- Witness for C10: two concrete requests that agree on the `value` header
but differ in other headers are answered identically. -/
theorem C10_handler_deterministic_witness :
    ({ headers := [("value", "5"), ("x-trace", "a")] } : Request).headerGet "value" =
      ({ headers := [("value", "5")] } : Request).headerGet "value" ∧
    serveRequest Server.init { headers := [("value", "5"), ("x-trace", "a")] } =
      serveRequest Server.init { headers := [("value", "5")] } := by
  have h : ({ headers := [("value", "5"), ("x-trace", "a")] } : Request).headerGet "value" =
      ({ headers := [("value", "5")] } : Request).headerGet "value" := rfl
  exact ⟨h,
    (C10_handler_deterministic Server.init
      { headers := [("value", "5"), ("x-trace", "a")] }
      { headers := [("value", "5")] } h).2⟩

end ClimberDiary
